import Mathlib

/-!
Shallow embedding of the voxsim configuration-builder core: the simulation
factory (gradient profiles, compartment models), the fiber translation
transform, and the geometry handler's document/file generation. Python
numbers (floats) are modelled as rationals, Python lists as Lean lists,
Python dictionaries as Lean structures, `assert` failures and raised
exceptions as `Option`/`none`, and the sequence of file writes performed
by a generation call as an explicit list of path/content pairs.
-/

namespace Voxsim

/-- A numeric vector (a Python list of floats). -/
abbrev Vec := List Rat

/-- Elementwise vector addition: `numpy.array(a) + numpy.array(b)` for
equal-length operands. -/
def vadd (a b : Vec) : Vec := List.zipWith (fun x y => x + y) a b

/-- Elementwise vector subtraction. -/
def vsub (a b : Vec) : Vec := List.zipWith (fun x y => x - y) a b

/-- Matrix-vector product, rows as lists. -/
def matVec (m : List Vec) (v : Vec) : Vec :=
  m.map (fun row => (List.zipWith (fun x y => x * y) row v).sum)

/-- A fiber: radius, symmetry, sampling, and an ordered anchor list
(`src/utils/Translation.py` accessors `get_radius`, `get_symmetry`,
`get_sampling`, `get_anchors`). -/
structure Fiber where
  radius : Rat
  symmetry : Int
  sampling : Int
  anchors : List Vec
deriving DecidableEq

/-- Modelled from the spec: `GeometryFactory.create_fiber(radius, symmetry,
sampling, anchors)` is not under src/; per §4.1 it validates `radius > 0`,
`symmetry >= 1`, `sampling >= 1`, non-empty anchors, and length-3 anchor
dimensionality, returning an immutable Fiber; a violation is a construction
error (`none`). -/
def create_fiber (radius : Rat) (symmetry sampling : Int) (anchors : List Vec) :
    Option Fiber :=
  if 0 < radius ∧ 1 ≤ symmetry ∧ 1 ≤ sampling ∧ anchors ≠ [] ∧
      (∀ a ∈ anchors, a.length = 3) then
    some ⟨radius, symmetry, sampling, anchors⟩
  else
    none

/-- `translate_fiber(fiber, bbox, translation)` from
`src/utils/Translation.py`: adds `translation` to every anchor, and to every
bbox point when the bbox is non-empty, then rebuilds the fiber through
`create_fiber` with its original radius/symmetry/sampling. -/
def translate_fiber (fiber : Fiber) (bbox : List Vec) (translation : Vec) :
    List Vec × Option Fiber :=
  let t_anchors := fiber.anchors.map (fun anchor => vadd anchor translation)
  let t_bbox := if bbox.length > 0 then bbox.map (fun pt => vadd pt translation) else []
  (t_bbox, create_fiber fiber.radius fiber.symmetry fiber.sampling t_anchors)

/-- Modelled from the spec: `rotate_fiber` (src/utils/Rotation.py is not under
src/); per §4.1 each anchor `a` becomes `pivot + R·(a - pivot)`, a supplied
bounding box undergoes the identical transform, and the result is
`(new_bbox, new_fiber)` rebuilt like the translation transform. -/
def rotate_fiber (fiber : Fiber) (bbox : List Vec) (rot : List Vec) (pivot : Vec) :
    List Vec × Option Fiber :=
  let r_anchors := fiber.anchors.map (fun anchor => vadd pivot (matVec rot (vsub anchor pivot)))
  let r_bbox := bbox.map (fun pt => vadd pivot (matVec rot (vsub pt pivot)))
  (r_bbox, create_fiber fiber.radius fiber.symmetry fiber.sampling r_anchors)

/-- Well-formedness of a fiber: exactly the `create_fiber` validation of §4.1,
which any fiber built by the factory satisfies. -/
def FiberWF (f : Fiber) : Prop :=
  0 < f.radius ∧ 1 ≤ f.symmetry ∧ 1 ≤ f.sampling ∧ f.anchors ≠ [] ∧
    ∀ a ∈ f.anchors, a.length = 3

instance (f : Fiber) : Decidable (FiberWF f) := by
  unfold FiberWF; infer_instance

/-! ## Simulation factory (`src/simulator/factory/simulation_factory/simulation_factory.py`) -/

/-- `SimulationFactory.CompartmentType` enumeration. -/
inductive CompartmentType where
  | INTRA_AXONAL
  | INTER_AXONAL
  | EXTRA_AXONAL_1
  | EXTRA_AXONAL_2
deriving DecidableEq

/-- The `.value` string of each `CompartmentType` member. -/
def CompartmentType.value : CompartmentType → String
  | .INTRA_AXONAL => "1"
  | .INTER_AXONAL => "2"
  | .EXTRA_AXONAL_1 => "3"
  | .EXTRA_AXONAL_2 => "4"

/-- `SimulationFactory.AcquisitionType` enumeration (its `.value` binds a
parameter-object constructor from the missing `.parameters` module). -/
inductive AcquisitionType where
  | STEJSKAL_TANNER
  | TENSOR_VALUED_BY_TENSOR
  | TENSOR_VALUED_BY_EIGS
  | TENSOR_VALUED_BY_PARAMS
deriving DecidableEq

/-- Modelled from the spec: the acquisition-type-specific parameter object
(`g_type.value(*g_type_args, **g_type_kwargs)`); the `.parameters` module is
not under src/, so the variant is the tag paired with the forwarded
constructor arguments. -/
structure VariantObject where
  acquisitionType : AcquisitionType
  args : List Rat
deriving DecidableEq

/-- Modelled from the spec: the `GradientProfile` record of the missing
`.parameters` module, wrapping the (padded) b-values, b-vectors, and one
variant object. -/
structure GradientProfile where
  bvals : List Rat
  bvecs : List Vec
  gradientType : VariantObject
deriving DecidableEq

/-- `SimulationFactory.generate_gradient_profile`: prepends `n_b0` zero
b-values and `n_b0` zero vectors (`[0 for i in range(n_b0)] + bvals`,
`[[0, 0, 0] for i in range(n_b0)] + bvecs`) and wraps them with the
`g_type`-specific variant object. -/
def generate_gradient_profile (bvals : List Rat) (bvecs : List Vec) (n_b0 : Nat)
    (g_type : AcquisitionType) (g_type_args : List Rat) : GradientProfile :=
  ⟨(List.range n_b0).map (fun _ => 0) ++ bvals,
   (List.range n_b0).map (fun _ => [0, 0, 0]) ++ bvecs,
   ⟨g_type, g_type_args⟩⟩

/-- The dictionary returned by `generate_fiber_stick_compartment`
(`kind` models the "type" key). -/
structure StickCompartment where
  kind : String
  model : String
  d : Rat
  t1 : Rat
  t2 : Rat
  id : String
deriving DecidableEq

/-- The dictionary returned by `generate_fiber_tensor_compartment`. -/
structure TensorCompartment where
  kind : String
  model : String
  d1 : Rat
  d2 : Rat
  d3 : Rat
  t1 : Rat
  t2 : Rat
  id : String
deriving DecidableEq

/-- The dictionary returned by `generate_extra_ball_compartment`. -/
structure BallCompartment where
  kind : String
  model : String
  d : Rat
  t1 : Rat
  t2 : Rat
  id : String
deriving DecidableEq

/-- `SimulationFactory.generate_fiber_stick_compartment`: the `assert` on
membership in `[INTRA_AXONAL, INTER_AXONAL]` is modelled as `none` on
failure. -/
def generate_fiber_stick_compartment (diffusivity t1 t2 : Rat)
    (compartment_type : CompartmentType) : Option StickCompartment :=
  if compartment_type ∈ [CompartmentType.INTRA_AXONAL, CompartmentType.INTER_AXONAL] then
    some ⟨"fiber", "stick", diffusivity, t1, t2, compartment_type.value⟩
  else
    none

/-- `SimulationFactory.generate_fiber_tensor_compartment`. -/
def generate_fiber_tensor_compartment (d1 d2 d3 t1 t2 : Rat)
    (compartment_type : CompartmentType) : Option TensorCompartment :=
  if compartment_type ∈ [CompartmentType.INTRA_AXONAL, CompartmentType.INTER_AXONAL] then
    some ⟨"fiber", "tensor", d1, d2, d3, t1, t2, compartment_type.value⟩
  else
    none

/-- `SimulationFactory.generate_extra_ball_compartment`: asserts membership in
`[EXTRA_AXONAL_1, EXTRA_AXONAL_2]`. -/
def generate_extra_ball_compartment (diffusivity t1 t2 : Rat)
    (compartment_type : CompartmentType) : Option BallCompartment :=
  if compartment_type ∈ [CompartmentType.EXTRA_AXONAL_1, CompartmentType.EXTRA_AXONAL_2] then
    some ⟨"non-fiber", "ball", diffusivity, t1, t2, compartment_type.value⟩
  else
    none

/-! ## Geometry handler (`src/factory/geometry_factory/features/geometry_handler.py`) -/

/-- A sphere, a terminal structure serialized inline (radius + center). -/
structure Sphere where
  radius : Rat
  center : Vec
deriving DecidableEq

/-- A bundle: per §3 it is metadata plus an ordered list of fibers; its
serialized spline payload is an opaque text format owned by the Bundle type
(§6), modelled as a carried string. -/
structure Bundle where
  center : Vec
  fibers : List Fiber
  payload : String
deriving DecidableEq

/-- `get_bundle_center` accessor used by `_generate_bundle_base`. -/
def Bundle.get_bundle_center (b : Bundle) : Vec := b.center

/-- Modelled from the spec: `Bundle.serialize()` yields the bundle's opaque
serialized fiber payload (§6; the Bundle class is not under src/). -/
def Bundle.serialize (b : Bundle) : String := b.payload

/-- Fallback bundle for indexed access (never reached at in-range indices). -/
def defaultBundle : Bundle := ⟨[], [], ""⟩

/-- Fallback sphere for indexed access (never reached at in-range indices). -/
def defaultSphere : Sphere := ⟨0, []⟩

/-- The world entry of the geometry document, built by
`ConfigBuilder.create_world(dimension, resolution)`. -/
structure World where
  dimension : Nat
  resolution : List Int
deriving DecidableEq

/-- Modelled from the spec: `ConfigBuilder.create_world(dimension, resolution)`
(§4.2; the ORM module is not under src/). -/
def create_world (dimension : Nat) (resolution : List Int) : World :=
  ⟨dimension, resolution⟩

/-- An entry of the geometry document's structures array: either a bundle
placeholder produced by `ConfigBuilder.create_bundle_object`, or a sphere
serialized inline. -/
inductive StructureEntry where
  | bundleObj (name : String) (fileRefs : List String) (weights : List Int) (center : Vec)
  | sphereObj (s : Sphere)
deriving DecidableEq

/-- Modelled from the spec: `ConfigBuilder.create_bundle_object(name,
file_refs, weights, center)` (§4.2; the ORM module is not under src/). -/
def create_bundle_object (name : String) (fileRefs : List String)
    (weights : List Int) (center : Vec) : StructureEntry :=
  .bundleObj name fileRefs weights center

/-- Modelled from the spec: the ORM `serialize(indent)` of a world — a
deterministic canonical rendering of its fields (§4.2; exact bytes owned by
the missing ORM module). -/
def World.serialize (w : World) (_indent : Nat) : String :=
  "\x7b \"dimension\": " ++ toString w.dimension ++
    ", \"resolution\": " ++ toString w.resolution ++ " \x7d"

/-- Modelled from the spec: the ORM `serialize(indent)` of a structure entry —
a deterministic canonical rendering of its fields (§4.2, §6). -/
def StructureEntry.serialize (st : StructureEntry) (_indent : Nat) : String :=
  match st with
  | .bundleObj name fileRefs weights center =>
      "\x7b \"name\": \"" ++ name ++ "\", \"refs\": " ++ toString fileRefs ++
        ", \"weights\": " ++ toString weights ++
        ", \"center\": " ++ toString center ++ " \x7d"
  | .sphereObj s =>
      "\x7b \"radius\": " ++ toString s.radius ++
        ", \"center\": " ++ toString s.center ++ " \x7d"

/-- `GeometryHandler` state: the `_parameters_dict` keys resolution, spacing,
bundles, spheres. -/
structure GeometryHandler where
  resolution : List Int
  spacing : List Rat
  bundles : List Bundle
  spheres : List Sphere
deriving DecidableEq

/-- `GeometryHandler.__init__(resolution, spacing)`: empty bundle and sphere
lists. -/
def GeometryHandler.init (resolution : List Int) (spacing : List Rat) :
    GeometryHandler :=
  ⟨resolution, spacing, [], []⟩

/-- `add_sphere`: appends to the spheres list. -/
def GeometryHandler.add_sphere (h : GeometryHandler) (s : Sphere) : GeometryHandler :=
  { h with spheres := h.spheres ++ [s] }

/-- `add_bundle`: appends to the bundles list. -/
def GeometryHandler.add_bundle (h : GeometryHandler) (b : Bundle) : GeometryHandler :=
  { h with bundles := h.bundles ++ [b] }

/-- `get_resolution`. -/
def GeometryHandler.get_resolution (h : GeometryHandler) : List Int := h.resolution

/-- `get_spacing`. -/
def GeometryHandler.get_spacing (h : GeometryHandler) : List Rat := h.spacing

/-- `_generate_bundle_base(i)`: a placeholder entry with empty name, file
reference `["f_{i}"]`, weights `[1]`, and bundle i's center. -/
def GeometryHandler.generate_bundle_base (h : GeometryHandler) (i : Nat) :
    StructureEntry :=
  create_bundle_object ""
    ["f_" ++ toString i]
    [1]
    (h.bundles.getD i defaultBundle).get_bundle_center

/-- `_get_number_of_bundles`. -/
def GeometryHandler.get_number_of_bundles (h : GeometryHandler) : Nat :=
  h.bundles.length

/-- The `structures` list assembled at lines 47-48 of the handler: one
placeholder per bundle index in range, then the sphere objects themselves. -/
def GeometryHandler.structuresList (h : GeometryHandler) : List StructureEntry :=
  (List.range h.get_number_of_bundles).map h.generate_bundle_base ++
    h.spheres.map StructureEntry.sphereObj

/-- The world entry built at line 46:
`ConfigBuilder.create_world(len(resolution), resolution)` — only the
resolution is passed. -/
def GeometryHandler.worldEntry (h : GeometryHandler) : World :=
  create_world h.get_resolution.length h.get_resolution

/-- The geometry document text written to
`{output_naming}_geometry_base.json` (lines 50-57). -/
def GeometryHandler.geometryDocument (h : GeometryHandler) (simulation_path : String) :
    String :=
  "\x7b\n" ++
    "    \"world\": " ++ h.worldEntry.serialize 6 ++ ",\n" ++
    "    \"path\": \"" ++ simulation_path ++ "\",\n" ++
    "    \"structures\": [\n" ++ "      " ++
    String.intercalate ",\n" (h.structuresList.map (fun st => st.serialize 8)) ++
    "\n    ]\n" ++
  "\x7d"

/-- One file write performed by the generation call: target path and the
bytes written. -/
structure FileWrite where
  filePath : String
  content : String
deriving DecidableEq

/-- Filesystem model: the set of paths that exist. -/
structure FileSystem where
  existingPaths : List String
deriving DecidableEq

/-- `os.path.exists`: the empty path never exists. -/
def pathExists (fs : FileSystem) (p : String) : Bool :=
  (p != "") && fs.existingPaths.contains p

/-- `os.makedirs`: creating the empty path raises FileNotFoundError
(modelled as `none`); otherwise the directory is created. -/
def makedirs (fs : FileSystem) (p : String) : Option FileSystem :=
  if p = "" then none else some ⟨p :: fs.existingPaths⟩

/-- `os.path.join` for the two-argument relative uses in the source (a
directory with no trailing separator joined with a file name). -/
def pathJoin (a b : String) : String :=
  if a = "" then b else a ++ "/" ++ b

/-- The ordered list of file writes a successful generation performs: the
geometry document, then one `{output_naming}_f_{i}.vspl` spline file per
bundle index holding that bundle's serialized payload (lines 44-61). -/
def GeometryHandler.outputWrites (h : GeometryHandler)
    (output_naming simulation_path : String) : List FileWrite :=
  ⟨pathJoin simulation_path (output_naming ++ "_geometry_base.json"),
    h.geometryDocument simulation_path⟩ ::
  (List.range h.bundles.length).map (fun bundle_idx =>
    ⟨pathJoin simulation_path (output_naming ++ "_f_" ++ toString bundle_idx ++ ".vspl"),
      (h.bundles.getD bundle_idx defaultBundle).serialize⟩)

/-- `generate_json_configuration_files(output_naming, simulation_path)`:
first the directory check/creation of lines 41-42 (an uncaught `makedirs`
failure aborts the call before any file is opened), then the document and
spline writes; returns the filesystem after directory creation and the
ordered writes. -/
def GeometryHandler.generate_json_configuration_files (h : GeometryHandler)
    (output_naming simulation_path : String) (fs : FileSystem) :
    Option (FileSystem × List FileWrite) :=
  match (if pathExists fs simulation_path then some fs else makedirs fs simulation_path) with
  | none => none
  | some fs1 => some (fs1, h.outputWrites output_naming simulation_path)

/-! ## Theorems -/

/-- C1: for every `bvals`, `bvecs` and `n_b0`, `generate_gradient_profile`
returns a GradientProfile whose b-value list is `n_b0` zeros followed by
`bvals` in order and whose b-vector list is `n_b0` copies of `[0,0,0]`
followed by `bvecs` in order; in particular, with `bvals = [1000, 2000]`,
`bvecs = [[1,0,0],[0,1,0]]` and `n_b0 = 2` it yields b-values
`[0,0,1000,2000]` and b-vectors `[[0,0,0],[0,0,0],[1,0,0],[0,1,0]]`. -/
theorem C1_gradient_profile_padding :
    (∀ (bvals : List Rat) (bvecs : List Vec) (n_b0 : Nat)
        (g_type : AcquisitionType) (g_type_args : List Rat),
      (generate_gradient_profile bvals bvecs n_b0 g_type g_type_args).bvals =
          List.replicate n_b0 0 ++ bvals ∧
      (generate_gradient_profile bvals bvecs n_b0 g_type g_type_args).bvecs =
          List.replicate n_b0 [0, 0, 0] ++ bvecs) ∧
    ((generate_gradient_profile [1000, 2000] [[1, 0, 0], [0, 1, 0]] 2
        AcquisitionType.STEJSKAL_TANNER []).bvals = [0, 0, 1000, 2000] ∧
     (generate_gradient_profile [1000, 2000] [[1, 0, 0], [0, 1, 0]] 2
        AcquisitionType.STEJSKAL_TANNER []).bvecs =
          [[0, 0, 0], [0, 0, 0], [1, 0, 0], [0, 1, 0]]) := by
  refine ⟨fun bvals bvecs n_b0 g_type g_type_args => ⟨?_, ?_⟩, by decide, by decide⟩ <;>
    simp [generate_gradient_profile]

/-- C2: the stick and tensor fiber-compartment constructors succeed exactly
on `INTRA_AXONAL`/`INTER_AXONAL`, and the extra ball compartment constructor
succeeds exactly on `EXTRA_AXONAL_1`/`EXTRA_AXONAL_2`; on every other type
the `assert` fails. -/
theorem C2_compartment_type_validation :
    ∀ (d d1 d2 d3 t1 t2 : Rat) (ct : CompartmentType),
      ((generate_fiber_stick_compartment d t1 t2 ct).isSome ↔
          ct = CompartmentType.INTRA_AXONAL ∨ ct = CompartmentType.INTER_AXONAL) ∧
      ((generate_fiber_tensor_compartment d1 d2 d3 t1 t2 ct).isSome ↔
          ct = CompartmentType.INTRA_AXONAL ∨ ct = CompartmentType.INTER_AXONAL) ∧
      ((generate_extra_ball_compartment d t1 t2 ct).isSome ↔
          ct = CompartmentType.EXTRA_AXONAL_1 ∨ ct = CompartmentType.EXTRA_AXONAL_2) := by
  intro d d1 d2 d3 t1 t2 ct
  cases ct <;>
    simp [generate_fiber_stick_compartment, generate_fiber_tensor_compartment,
      generate_extra_ball_compartment]

/-- C8: whenever `bvals` and `bvecs` have equal length before padding, the
gradient profile's b-value and b-vector sequences have equal length. -/
theorem C8_gradient_profile_equal_lengths (bvals : List Rat) (bvecs : List Vec)
    (n_b0 : Nat) (g_type : AcquisitionType) (g_type_args : List Rat)
    (hlen : bvals.length = bvecs.length) :
    (generate_gradient_profile bvals bvecs n_b0 g_type g_type_args).bvals.length =
      (generate_gradient_profile bvals bvecs n_b0 g_type g_type_args).bvecs.length := by
  simp [generate_gradient_profile, hlen]

/-- Witness for C8 at `bvals = [1000]`, `bvecs = [[1,0,0]]`, `n_b0 = 2`. -/
theorem C8_gradient_profile_equal_lengths_witness :
    ([(1000 : Rat)].length = [([1, 0, 0] : Vec)].length) ∧
    (generate_gradient_profile [1000] [[1, 0, 0]] 2
        AcquisitionType.STEJSKAL_TANNER []).bvals.length =
      (generate_gradient_profile [1000] [[1, 0, 0]] 2
        AcquisitionType.STEJSKAL_TANNER []).bvecs.length :=
  ⟨by decide,
   C8_gradient_profile_equal_lengths [1000] [[1, 0, 0]] 2
     AcquisitionType.STEJSKAL_TANNER [] (by decide)⟩

lemma vadd_length (a b : Vec) : (vadd a b).length = min a.length b.length :=
  List.length_zipWith ..

lemma matVec_length (m : List Vec) (v : Vec) : (matVec m v).length = m.length :=
  List.length_map ..

lemma vsub_length (a b : Vec) : (vsub a b).length = min a.length b.length :=
  List.length_zipWith ..

lemma create_fiber_eq_some (r : Rat) (s smp : Int) (anchors : List Vec)
    (h1 : 0 < r) (h2 : 1 ≤ s) (h3 : 1 ≤ smp) (h4 : anchors ≠ [])
    (h5 : ∀ a ∈ anchors, a.length = 3) :
    create_fiber r s smp anchors = some ⟨r, s, smp, anchors⟩ := by
  unfold create_fiber
  rw [if_pos ⟨h1, h2, h3, h4, h5⟩]

lemma translate_fiber_eq (f : Fiber) (bbox : List Vec) (t : Vec)
    (hf : FiberWF f) (ht : t.length = 3) :
    translate_fiber f bbox t =
      (bbox.map (fun pt => vadd pt t),
       some ⟨f.radius, f.symmetry, f.sampling,
             f.anchors.map (fun anchor => vadd anchor t)⟩) := by
  obtain ⟨h1, h2, h3, h4, h5⟩ := hf
  simp only [translate_fiber]
  rw [create_fiber_eq_some _ _ _ _ h1 h2 h3
    (by simpa using h4)
    (by
      intro a ha
      obtain ⟨a0, ha0, rfl⟩ := List.mem_map.mp ha
      simp [vadd_length, h5 a0 ha0, ht])]
  cases bbox with
  | nil => simp
  | cons p ps => simp

lemma rotate_fiber_eq (f : Fiber) (bbox : List Vec) (rot : List Vec) (pivot : Vec)
    (hf : FiberWF f) (hp : pivot.length = 3) (hr : rot.length = 3) :
    rotate_fiber f bbox rot pivot =
      (bbox.map (fun pt => vadd pivot (matVec rot (vsub pt pivot))),
       some ⟨f.radius, f.symmetry, f.sampling,
             f.anchors.map (fun anchor => vadd pivot (matVec rot (vsub anchor pivot)))⟩) := by
  obtain ⟨h1, h2, h3, h4, h5⟩ := hf
  simp only [rotate_fiber]
  rw [create_fiber_eq_some _ _ _ _ h1 h2 h3
    (by simpa using h4)
    (by
      intro a ha
      obtain ⟨a0, ha0, rfl⟩ := List.mem_map.mp ha
      simp [vadd_length, matVec_length, hp, hr])]

/-- C6: on a well-formed fiber, both the translation transform and the
(spec-modelled) rotation transform yield a fiber with exactly as many
anchors as the input, the i-th output anchor being the transform of the
i-th input anchor. -/
theorem C6_anchor_count_and_order (f : Fiber) (bbox bbox' : List Vec)
    (t pivot : Vec) (rot : List Vec) (hf : FiberWF f) (ht : t.length = 3)
    (hp : pivot.length = 3) (hr : rot.length = 3) :
    ((translate_fiber f bbox t).2 =
        some ⟨f.radius, f.symmetry, f.sampling,
              f.anchors.map (fun anchor => vadd anchor t)⟩ ∧
      (f.anchors.map (fun anchor => vadd anchor t)).length = f.anchors.length ∧
      ∀ i : Nat, (f.anchors.map (fun anchor => vadd anchor t))[i]? =
        (f.anchors[i]?).map (fun anchor => vadd anchor t)) ∧
    ((rotate_fiber f bbox' rot pivot).2 =
        some ⟨f.radius, f.symmetry, f.sampling,
              f.anchors.map (fun anchor => vadd pivot (matVec rot (vsub anchor pivot)))⟩ ∧
      (f.anchors.map (fun anchor => vadd pivot (matVec rot (vsub anchor pivot)))).length =
        f.anchors.length ∧
      ∀ i : Nat,
        (f.anchors.map (fun anchor => vadd pivot (matVec rot (vsub anchor pivot))))[i]? =
          (f.anchors[i]?).map (fun anchor => vadd pivot (matVec rot (vsub anchor pivot)))) := by
  refine ⟨⟨?_, List.length_map .., fun i => List.getElem?_map ..⟩,
          ⟨?_, List.length_map .., fun i => List.getElem?_map ..⟩⟩
  · rw [translate_fiber_eq f bbox t hf ht]
  · rw [rotate_fiber_eq f bbox' rot pivot hf hp hr]

/-- A concrete two-anchor fiber used to witness the transform theorems. -/
def fiberEx : Fiber := ⟨4, 1, 30, [[1, 2, 3], [4, 5, 6]]⟩

/-- A concrete translation vector used as witness input. -/
def translationEx : Vec := [1, 1, 1]

/-- A concrete pivot used as witness input. -/
def pivotEx : Vec := [0, 0, 0]

/-- A concrete 90-degree YZ rotation matrix used as witness input. -/
def rotEx : List Vec := [[1, 0, 0], [0, 0, -1], [0, 1, 0]]

/-- A concrete bounding box used as witness input. -/
def bboxEx : List Vec := [[0, 0, 0], [7, 7, 7]]

/-- Witness for C6 at a concrete two-anchor fiber, a 90-degree YZ rotation
matrix, translation `[1,1,1]` and pivot `[0,0,0]`. -/
theorem C6_anchor_count_and_order_witness :
    (FiberWF fiberEx ∧ translationEx.length = 3 ∧ pivotEx.length = 3 ∧
      rotEx.length = 3) ∧
    (((translate_fiber fiberEx [] translationEx).2 =
        some ⟨fiberEx.radius, fiberEx.symmetry, fiberEx.sampling,
              fiberEx.anchors.map (fun anchor => vadd anchor translationEx)⟩ ∧
      (fiberEx.anchors.map (fun anchor => vadd anchor translationEx)).length =
        fiberEx.anchors.length ∧
      ∀ i : Nat, (fiberEx.anchors.map (fun anchor => vadd anchor translationEx))[i]? =
        (fiberEx.anchors[i]?).map (fun anchor => vadd anchor translationEx)) ∧
    ((rotate_fiber fiberEx [] rotEx pivotEx).2 =
        some ⟨fiberEx.radius, fiberEx.symmetry, fiberEx.sampling,
              fiberEx.anchors.map (fun anchor =>
                vadd pivotEx (matVec rotEx (vsub anchor pivotEx)))⟩ ∧
      (fiberEx.anchors.map (fun anchor =>
          vadd pivotEx (matVec rotEx (vsub anchor pivotEx)))).length =
        fiberEx.anchors.length ∧
      ∀ i : Nat,
        (fiberEx.anchors.map (fun anchor =>
            vadd pivotEx (matVec rotEx (vsub anchor pivotEx))))[i]? =
          (fiberEx.anchors[i]?).map (fun anchor =>
            vadd pivotEx (matVec rotEx (vsub anchor pivotEx))))) :=
  ⟨⟨by decide, by decide, by decide, by decide⟩,
   C6_anchor_count_and_order fiberEx [] [] translationEx pivotEx rotEx
     (by decide) (by decide) (by decide) (by decide)⟩

/-- C7: on a well-formed fiber and a length-3 translation,
`translate_fiber` returns the bbox with the translation added to every
point, together with a fiber (same radius/symmetry/sampling) whose anchors
are the input anchors with the translation added elementwise; the call
never fails (the option is `some`). Immutability is inherent in the
embedding: the result is constructed from, and does not alias, the
inputs. -/
theorem C7_translate_fiber_correct (f : Fiber) (bbox : List Vec) (t : Vec)
    (hf : FiberWF f) (ht : t.length = 3) :
    (translate_fiber f bbox t).1 = bbox.map (fun pt => vadd pt t) ∧
    (translate_fiber f bbox t).2 =
      some ⟨f.radius, f.symmetry, f.sampling,
            f.anchors.map (fun anchor => vadd anchor t)⟩ ∧
    ((translate_fiber f bbox t).2).isSome = true := by
  rw [translate_fiber_eq f bbox t hf ht]
  exact ⟨rfl, rfl, rfl⟩

/-- Witness for C7 at a concrete fiber, bbox and translation. -/
theorem C7_translate_fiber_correct_witness :
    (FiberWF fiberEx ∧ translationEx.length = 3) ∧
    ((translate_fiber fiberEx bboxEx translationEx).1 =
      bboxEx.map (fun pt => vadd pt translationEx) ∧
    (translate_fiber fiberEx bboxEx translationEx).2 =
      some ⟨fiberEx.radius, fiberEx.symmetry, fiberEx.sampling,
            fiberEx.anchors.map (fun anchor => vadd anchor translationEx)⟩ ∧
    ((translate_fiber fiberEx bboxEx translationEx).2).isSome = true) :=
  ⟨⟨by decide, by decide⟩,
   C7_translate_fiber_correct fiberEx bboxEx translationEx (by decide) (by decide)⟩

lemma structuresList_eq (h : GeometryHandler) :
    h.structuresList =
      (List.range h.bundles.length).map h.generate_bundle_base ++
        h.spheres.map StructureEntry.sphereObj := rfl

/-- C3: the structures array of the geometry document has exactly
`n + m` entries for `n` bundles and `m` spheres: entry `i` (for `i < n`) is
the placeholder with empty name, file references `["f_i"]`, weights `[1]`
and bundle i's center, and entry `n + j` (for `j < m`) is sphere `j`
inline. -/
theorem C3_structures_array (h : GeometryHandler) (i j : Nat)
    (hi : i < h.bundles.length) (hj : j < h.spheres.length) :
    h.structuresList.length = h.bundles.length + h.spheres.length ∧
    h.structuresList[i]? =
      some (StructureEntry.bundleObj "" ["f_" ++ toString i] [1]
        (h.bundles.getD i defaultBundle).center) ∧
    h.structuresList[h.bundles.length + j]? =
      some (StructureEntry.sphereObj (h.spheres.getD j defaultSphere)) := by
  refine ⟨?_, ?_, ?_⟩
  · simp [structuresList_eq]
  · rw [structuresList_eq,
      List.getElem?_append_left (by simpa using hi),
      List.getElem?_map, List.getElem?_range hi]
    simp [GeometryHandler.generate_bundle_base, create_bundle_object,
      Bundle.get_bundle_center]
  · rw [structuresList_eq, List.getElem?_append_right (by simp)]
    simp [List.getElem?_eq_getElem hj, List.getD_eq_getElem?_getD]

/-- A concrete bundle used to witness the geometry theorems. -/
def bundleEx : Bundle := ⟨[0, 0, 0], [fiberEx], "spline-payload-0"⟩

/-- A concrete sphere used to witness the geometry theorems. -/
def sphereEx : Sphere := ⟨5, [-2, 7, 10]⟩

/-- A concrete handler (one bundle, one sphere) built through the handler's
own operations. -/
def handlerEx : GeometryHandler :=
  ((GeometryHandler.init [10, 10, 10] [2, 2, 2]).add_bundle bundleEx).add_sphere sphereEx

/-- Witness for C3 at the one-bundle, one-sphere handler. -/
theorem C3_structures_array_witness :
    (0 < handlerEx.bundles.length ∧ 0 < handlerEx.spheres.length) ∧
    (handlerEx.structuresList.length =
        handlerEx.bundles.length + handlerEx.spheres.length ∧
     handlerEx.structuresList[0]? =
        some (StructureEntry.bundleObj "" ["f_" ++ toString 0] [1]
          (handlerEx.bundles.getD 0 defaultBundle).center) ∧
     handlerEx.structuresList[handlerEx.bundles.length + 0]? =
        some (StructureEntry.sphereObj (handlerEx.spheres.getD 0 defaultSphere))) :=
  ⟨⟨by decide, by decide⟩,
   C3_structures_array handlerEx 0 0 (by decide) (by decide)⟩

/-- C4: on a successful generation, the writes after the geometry document
are exactly one spline file per bundle: `bundles.length` of them, the one
at position `i + 1` targeting `{output_naming}_f_{i}.vspl` under the
simulation path with the bundle's serialized payload as content. -/
theorem C4_spline_files (h : GeometryHandler) (naming spath : String)
    (fs fs1 : FileSystem) (ws : List FileWrite) (i : Nat)
    (hgen : h.generate_json_configuration_files naming spath fs = some (fs1, ws))
    (hi : i < h.bundles.length) :
    ws.length = h.bundles.length + 1 ∧
    ws[i + 1]? =
      some ⟨pathJoin spath (naming ++ "_f_" ++ toString i ++ ".vspl"),
        (h.bundles.getD i defaultBundle).serialize⟩ := by
  have hws : ws = h.outputWrites naming spath := by
    unfold GeometryHandler.generate_json_configuration_files at hgen
    rcases hc : (if pathExists fs spath then some fs else makedirs fs spath) with _ | fs2 <;>
      rw [hc] at hgen <;> simp at hgen
    exact hgen.2.symm
  subst hws
  refine ⟨by simp [GeometryHandler.outputWrites], ?_⟩
  rw [GeometryHandler.outputWrites, List.getElem?_cons_succ,
    List.getElem?_map, List.getElem?_range hi]
  rfl

set_option maxRecDepth 8192 in
/-- Witness for C4: a concrete successful run over a filesystem where the
output directory already exists. -/
theorem C4_spline_files_witness :
    (handlerEx.generate_json_configuration_files "name" "out" ⟨["out"]⟩ =
        some (⟨["out"]⟩, handlerEx.outputWrites "name" "out") ∧
      0 < handlerEx.bundles.length) ∧
    ((handlerEx.outputWrites "name" "out").length = handlerEx.bundles.length + 1 ∧
     (handlerEx.outputWrites "name" "out")[0 + 1]? =
        some ⟨pathJoin "out" ("name" ++ "_f_" ++ toString 0 ++ ".vspl"),
          (handlerEx.bundles.getD 0 defaultBundle).serialize⟩) :=
  ⟨⟨by decide, by decide⟩,
   C4_spline_files handlerEx "name" "out" ⟨["out"]⟩ ⟨["out"]⟩
     (handlerEx.outputWrites "name" "out") 0 (by decide) (by decide)⟩

/-- Handler used to refute C5: same resolution as `handlerEx`'s world but a
different spacing. -/
def handlerSpacing3 : GeometryHandler := GeometryHandler.init [10, 10, 10] [3, 3, 3]

/-- Handler with spacing `[2,2,2]`, same resolution as `handlerSpacing3`. -/
def handlerSpacing2 : GeometryHandler := GeometryHandler.init [10, 10, 10] [2, 2, 2]

/-- C5 counterexample: two handlers that differ only in spacing produce the
same world entry — and even byte-identical geometry documents — so the world
entry does not carry the spacing vector the aggregator was constructed
with (line 46 passes only the resolution to `create_world`). -/
theorem C5_counterexample :
    handlerSpacing2.worldEntry = handlerSpacing3.worldEntry ∧
    handlerSpacing2.spacing ≠ handlerSpacing3.spacing ∧
    handlerSpacing2.geometryDocument "sim" = handlerSpacing3.geometryDocument "sim" :=
  ⟨rfl, by decide, rfl⟩

/-- C5 amended: the world entry carries a dimensionality equal to the length
of the resolution vector and the resolution vector itself; the spacing
vector is not part of the world entry (the entry is unchanged under any
replacement of the handler's spacing). -/
theorem C5_world_entry_amended (h : GeometryHandler) (spacing' : List Rat) :
    h.worldEntry.dimension = h.resolution.length ∧
    h.worldEntry.resolution = h.resolution ∧
    ({ h with spacing := spacing' } : GeometryHandler).worldEntry = h.worldEntry :=
  ⟨rfl, rfl, rfl⟩

/-- C9: generation is deterministic — two calls on equal handler states with
equal naming, path and filesystem produce equal outcomes, in particular
byte-identical file contents. -/
theorem C9_deterministic_generation (h1 h2 : GeometryHandler)
    (naming1 naming2 spath1 spath2 : String) (fs1 fs2 : FileSystem)
    (hh : h1 = h2) (hn : naming1 = naming2) (hp : spath1 = spath2)
    (hf : fs1 = fs2) :
    h1.generate_json_configuration_files naming1 spath1 fs1 =
      h2.generate_json_configuration_files naming2 spath2 fs2 := by
  subst hh; subst hn; subst hp; subst hf; rfl

/-- Witness for C9 at concrete equal inputs. -/
theorem C9_deterministic_generation_witness :
    (handlerEx = handlerEx ∧ ("name" : String) = "name" ∧
      ("out" : String) = "out" ∧ (⟨["out"]⟩ : FileSystem) = ⟨["out"]⟩) ∧
    handlerEx.generate_json_configuration_files "name" "out" ⟨["out"]⟩ =
      handlerEx.generate_json_configuration_files "name" "out" ⟨["out"]⟩ :=
  ⟨⟨rfl, rfl, rfl, rfl⟩,
   C9_deterministic_generation handlerEx handlerEx "name" "name" "out" "out"
     ⟨["out"]⟩ ⟨["out"]⟩ rfl rfl rfl rfl⟩

/-- C10: with the default empty `simulation_path`, the generation call fails
at the directory-creation step — `os.path.exists("")` is false and
`os.makedirs("")` raises — so no geometry document or spline file write is
performed (the call yields no write list at all). -/
theorem C10_empty_simulation_path_fails (h : GeometryHandler)
    (naming : String) (fs : FileSystem) :
    h.generate_json_configuration_files naming "" fs = none := by
  unfold GeometryHandler.generate_json_configuration_files
  simp [pathExists, makedirs]

end Voxsim
